/-
Verification of the atlas geocoding service (github.com/UnknownOlympus/atlas).

Shallow embedding of the geocoding core:
 - the progressive-fallback address variation generator and resolution loop
   (internal/geocoding/nominatim.go),
 - the direct-call Google strategy (internal/geocoding/google.go),
 - the provider factory (internal/geocoding/factory.go),
 - the per-task worker body of the orchestration service
   (internal/service, the current version constructed by cmd/main.go with a
   provider-name metric label and a configurable address prefix).

HTTP transport, JSON decoding and clock reads are external effects; they enter
the embedding as oracle functions (a resolver returning a classified result per
address) and as emitted event traces (metric observations, repository writes,
warning log lines).  Coordinate scalars are carried opaquely in a type
parameter: the embedded code only moves them, never computes with them.
-/
import Mathlib

namespace Atlas

deriving instance DecidableEq for Except

/-! ### String helpers (Go strings.Split / strings.TrimSpace / strings.Join) -/

/-- Character-level splitter: `splitOnCommaAux l acc` scans `l`, accumulating
the current field in `acc` (reversed).  Embeds Go `strings.Split(s, ",")`. -/
def splitOnCommaAux : List Char → List Char → List (List Char)
  | [], acc => [acc.reverse]
  | c :: rest, acc =>
      if c = ',' then acc.reverse :: splitOnCommaAux rest []
      else splitOnCommaAux rest (c :: acc)

/-- Go `strings.Split(s, ",")`: split on every comma; never returns `[]`. -/
def splitOnComma (s : String) : List String :=
  (splitOnCommaAux s.toList []).map String.mk

/-- Whitespace test used by Go `strings.TrimSpace` (restricted to the ASCII
whitespace characters that occur in addresses). -/
def isSpaceChar (c : Char) : Bool :=
  c = ' ' || c = '\t' || c = '\n' || c = '\r'

/-- Go `strings.TrimSpace`: drop leading and trailing whitespace. -/
def trimSpace (s : String) : String :=
  String.mk (((s.toList.dropWhile isSpaceChar).reverse.dropWhile isSpaceChar).reverse)

/-- Go `strings.Join(parts, ", ")`. -/
def joinCommaSpace (parts : List String) : String :=
  String.intercalate ", " parts

/-- `true` iff the string contains a comma separator. -/
def containsComma (s : String) : Bool :=
  s.toList.contains ','

/-! ### Data model (internal/models) -/

/-- `models.Coordinates`.  The scalar type is a parameter: the code under
verification only passes latitude/longitude through, never computes on them
(in Go they are `float64`). -/
structure Coordinates (α : Type) where
  latitude : α
  longitude : α
deriving DecidableEq, Repr

/-- `models.Task`: identifier plus raw address text. -/
structure Task where
  id : Int
  address : String
deriving DecidableEq, Repr

/-! ### Nominatim progressive-fallback strategy (internal/geocoding/nominatim.go) -/

/-- Classified outcome of a single Nominatim resolution call
(`geocodeSingleAddress`).  `emptyResponse` is the sentinel
`ErrNominatimEmptyResponse`; every other constructor is one of the
"hard" error classes that function can return, none of which wraps the
empty-response sentinel (so Go `errors.Is(err, ErrNominatimEmptyResponse)`
holds exactly for `emptyResponse`). -/
inductive GeoError where
  | emptyResponse
  | invalidCoords (detail : String)
  | apiError (status : Nat) (body : String)
  | requestFailed (detail : String)
  | decodeFailed (detail : String)
deriving DecidableEq, Repr

/-- Go `errors.Is(err, ErrNominatimEmptyResponse)` over classified errors. -/
def isEmptyResponse : GeoError → Bool
  | .emptyResponse => true
  | _ => false

/-- `addVariation` closure inside `generateAddressFallbacks`: append `v`
unless it is empty or already present (the `seen` map holds exactly the
strings already in `variations`). -/
def addVariation (vars : List String) (v : String) : List String :=
  if v ≠ "" ∧ v ∉ vars then vars ++ [v] else vars

/-- `generateAddressFallbacks` (nominatim.go:130-174): ordered, de-duplicated
variations from most to least specific.  `parts.headD ""` stands for the Go
index `parts[0]`, safe because `splitOnComma` never returns an empty list. -/
def generateAddressFallbacks (address : String) : List String :=
  if address = "" then [""]
  else
    let vars0 := addVariation [] address
    let parts := (splitOnComma address).map trimSpace
    if parts.length > 1 then
      let vars1 := addVariation vars0 (joinCommaSpace (parts.take (parts.length - 1)))
      let vars2 :=
        if parts.length > 2 then
          addVariation vars1 (joinCommaSpace (parts.take (parts.length - 2)))
        else vars1
      addVariation vars2 (parts.headD "")
    else vars0

/-- The variation loop of `NominatimProvider.Geocode` (nominatim.go:91-126),
parametric in the single-address resolver and in the success payload.
Returns the ordered list of addresses actually sent to the resolver together
with the final outcome: first success wins; a non-empty-response error aborts
and is returned unchanged; exhaustion yields `emptyResponse`. -/
def tryVariations {β : Type} (resolve : String → Except GeoError β) :
    List String → List String × Except GeoError β
  | [] => ([], .error .emptyResponse)
  | v :: rest =>
      match resolve v with
      | .ok c => ([v], .ok c)
      | .error e =>
          if isEmptyResponse e then
            let r := tryVariations resolve rest
            (v :: r.1, r.2)
          else ([v], .error e)

/-- `NominatimProvider.Geocode` (nominatim.go:84-127): generate the fallback
variations, then run the resolution loop over them. -/
def nominatimGeocode {β : Type} (resolve : String → Except GeoError β)
    (address : String) : List String × Except GeoError β :=
  tryVariations resolve (generateAddressFallbacks address)

/-- The candidate strings that `generateAddressFallbacks` pushes through
`addVariation` after the initial full address (proof helper: lets the
branching body be read as one fold). -/
def fallbackCandidates (address : String) : List String :=
  let parts := (splitOnComma address).map trimSpace
  if parts.length > 1 then
    joinCommaSpace (parts.take (parts.length - 1)) ::
      ((if parts.length > 2 then [joinCommaSpace (parts.take (parts.length - 2))] else []) ++
        [parts.headD ""])
  else []

/-! ### Direct-call Google strategy (internal/geocoding/google.go) -/

/-- One `maps.GeocodingResult`: only the `Geometry.Location` pair is read. -/
structure GeocodingResult (α : Type) where
  lat : α
  lng : α
deriving DecidableEq, Repr

/-- Outcome classification of `GoogleProvider.Geocode`: the underlying client
error wrapped as `failed to geocode address: %w`, or the sentinel
`ErrEmptyResponse`. -/
inductive GoogleError where
  | geocodeFailed (detail : String)
  | emptyResponse
deriving DecidableEq, Repr

/-- `GoogleProvider.Geocode` (google.go:39-54), parametric in the injected
`GoogleAPIClient`: a client error is wrapped and propagated; an empty result
list becomes `ErrEmptyResponse`; otherwise the first result's location pair is
returned (`Latitude := Lat`, `Longitude := Lng`). -/
def googleGeocode {α : Type} (client : String → Except String (List (GeocodingResult α)))
    (address : String) : Except GoogleError (Coordinates α) :=
  match client address with
  | .error e => .error (.geocodeFailed ("failed to geocode address: " ++ e))
  | .ok [] => .error .emptyResponse
  | .ok (r :: _) => .ok { latitude := r.lat, longitude := r.lng }

/-! ### Provider factory (internal/geocoding/factory.go) -/

/-- `ProviderConfig` (factory.go:24-29).  `type` is the Go `ProviderType`
string tag; the logger is not a field here — warning log lines appear in the
factory's output trace instead. -/
structure ProviderConfig where
  type : String
  apiKey : String
  rateLimit : Int
deriving DecidableEq, Repr

/-- What the factory constructed: which variant, with which credential and
which effective rate-limit setting.  For the Google variant the rate limit is
an `Option`: `maps.WithRateLimit` is applied only when `RateLimit > 0`
(factory.go:64-66).  `maps.NewClient` with a non-empty key is modelled as
succeeding (its failure is an external-library condition). -/
inductive ProviderSpec where
  | google (apiKey : String) (rateLimitOpt : Option Int)
  | nominatim
  | visicom (apiKey : String) (rateLimit : Int)
deriving DecidableEq, Repr

/-- Warning line logged by `newVisicomProvider` when the rate limit is unset
(factory.go:90). -/
def visicomRateWarning : String :=
  "Rate limit for Visicom API not set, set a default value"

/-- `NewProvider` (factory.go:39-50) together with the credentialed
constructors `newGoogleProvider` (53-74), `newNominatimProvider` (77-80) and
`newVisicomProvider` (83-94).  Returns the construction outcome paired with
the list of warning log lines emitted during construction. -/
def NewProvider (config : ProviderConfig) : Except String ProviderSpec × List String :=
  if config.type = "google" then
    if config.apiKey = "" then (.error "API key is required for Google provider", [])
    else
      (.ok (.google config.apiKey
        (if config.rateLimit > 0 then some config.rateLimit else none)), [])
  else if config.type = "nominatim" then
    (.ok .nominatim, [])
  else if config.type = "visicom" then
    if config.apiKey = "" then (.error "API key is required for Visicom provider", [])
    else if config.rateLimit = 0 then
      (.ok (.visicom config.apiKey 5), [visicomRateWarning])
    else
      (.ok (.visicom config.apiKey config.rateLimit), [])
  else
    (.error ("unsupported provider type: " ++ config.type), [])

/-! ### Worker body (internal/service, current version: the `GeocodingService`
with `providerName` metric labelling and `addresPrefix`, as constructed by
cmd/main.go; it supersedes the stale copy that hard-codes the "google" label) -/

/-- Observable side effects of one worker iteration, in program order:
metric updates (gauge, histogram observation with its label, counters) and
repository writes.  Repository write failures influence only log lines, which
this trace does not record. -/
inductive WorkerEvent (α : Type) where
  | activeWorkersInc
  | observeDuration (providerLabel : String)
  | taskProcessedInc (status : String)
  | apiErrorsInc
  | repoIncrementFailure (taskId : Int) (errText : String)
  | repoUpdateCoordinates (taskId : Int) (coords : Coordinates α)
  | activeWorkersDec
deriving DecidableEq, Repr

/-- Event is the histogram observation. -/
def WorkerEvent.isObserve {α : Type} : WorkerEvent α → Bool
  | .observeDuration _ => true
  | _ => false

/-- Event is the coordinate-update repository write. -/
def WorkerEvent.isCoordUpdate {α : Type} : WorkerEvent α → Bool
  | .repoUpdateCoordinates _ _ => true
  | _ => false

/-- Event is the failure-increment repository write. -/
def WorkerEvent.isFailureIncr {α : Type} : WorkerEvent α → Bool
  | .repoIncrementFailure _ _ => true
  | _ => false

/-- One iteration of `GeocodingService.worker` for a single task, parametric
in the provider (`geocode`, of arbitrary error type `ε` rendered to text by
`errString`, Go `err.Error()`).  The configured address prefix (`addressPfx`,
field `addresPrefix` in the source) is prepended before resolution; the
duration observation is emitted right after the provider call, before the
success/failure branch, labelled with the service's `providerName`. -/
def workerProcessTask {α ε : Type} (providerName addressPfx : String)
    (geocode : String → Except ε (Coordinates α)) (errString : ε → String)
    (t : Task) : List (WorkerEvent α) :=
  let outcome := geocode (addressPfx ++ t.address)
  WorkerEvent.activeWorkersInc :: WorkerEvent.observeDuration providerName ::
    (match outcome with
     | .error e =>
         [WorkerEvent.taskProcessedInc "failure", WorkerEvent.apiErrorsInc,
          WorkerEvent.repoIncrementFailure t.id (errString e),
          WorkerEvent.activeWorkersDec]
     | .ok c =>
         [WorkerEvent.taskProcessedInc "success",
          WorkerEvent.repoUpdateCoordinates t.id c,
          WorkerEvent.activeWorkersDec])

/-! ## Theorems -/

/-! ### Fallback generator lemmas -/

theorem generateAddressFallbacks_eq_foldl (address : String) (h : address ≠ "") :
    generateAddressFallbacks address =
      (fallbackCandidates address).foldl addVariation (addVariation [] address) := by
  unfold generateAddressFallbacks fallbackCandidates
  rw [if_neg h]
  dsimp only
  split
  · split <;> simp [List.foldl]
  · simp [List.foldl]

theorem addVariation_nodup (vars : List String) (v : String) (h : vars.Nodup) :
    (addVariation vars v).Nodup := by
  unfold addVariation
  split
  · next hc => simp [List.nodup_append, h, hc.2]
  · exact h

theorem addVariation_length (vars : List String) (v : String) :
    (addVariation vars v).length ≤ vars.length + 1 := by
  unfold addVariation
  split
  · simp
  · exact Nat.le_succ _

theorem addVariation_head (vars : List String) (v : String) (h : vars ≠ []) :
    (addVariation vars v).head? = vars.head? := by
  unfold addVariation
  split
  · cases vars with
    | nil => exact absurd rfl h
    | cons a l => simp
  · rfl

theorem foldl_addVariation_nodup (vs : List String) (vars : List String) (h : vars.Nodup) :
    (vs.foldl addVariation vars).Nodup := by
  induction vs generalizing vars with
  | nil => exact h
  | cons v rest ih => exact ih _ (addVariation_nodup _ _ h)

theorem foldl_addVariation_head (vs : List String) (vars : List String) (h : vars ≠ []) :
    (vs.foldl addVariation vars).head? = vars.head? := by
  induction vs generalizing vars with
  | nil => rfl
  | cons v rest ih =>
      rw [List.foldl_cons, ih _ ?_, addVariation_head _ _ h]
      unfold addVariation
      split
      · simp [h]
      · exact h

theorem foldl_addVariation_length (vs : List String) (vars : List String) :
    (vs.foldl addVariation vars).length ≤ vars.length + vs.length := by
  induction vs generalizing vars with
  | nil => simp
  | cons v rest ih =>
      calc (List.foldl addVariation (addVariation vars v) rest).length
          ≤ (addVariation vars v).length + rest.length := ih _
        _ ≤ vars.length + 1 + rest.length :=
            Nat.add_le_add_right (addVariation_length _ _) _
        _ = vars.length + (v :: rest).length := by simp [Nat.add_assoc, Nat.add_comm 1]

theorem fallbackCandidates_length (address : String) :
    (fallbackCandidates address).length ≤ 3 := by
  unfold fallbackCandidates
  dsimp only
  split
  · split <;> simp
  · simp

/-- C10: for every input address, the fallback generator returns a non-empty,
duplicate-free list of at most four variations whose first element is the full
input address; the empty-string input yields exactly the one variation `""`. -/
theorem generateAddressFallbacks_wellformed (address : String) :
    generateAddressFallbacks address ≠ [] ∧
    (generateAddressFallbacks address).Nodup ∧
    (generateAddressFallbacks address).length ≤ 4 ∧
    (generateAddressFallbacks address).head? = some address ∧
    (address = "" → generateAddressFallbacks address = [""]) := by
  by_cases h : address = ""
  · subst h
    exact ⟨by decide, by decide, by decide, by decide, fun _ => rfl⟩
  · have h0 : addVariation [] address = [address] := by
      unfold addVariation
      simp [h]
    rw [generateAddressFallbacks_eq_foldl address h, h0]
    have hhead : (List.foldl addVariation [address] (fallbackCandidates address)).head? =
        some address := by
      rw [foldl_addVariation_head _ _ (by simp)]
      rfl
    refine ⟨?_, ?_, ?_, hhead, fun hc => absurd hc h⟩
    · intro hnil
      rw [hnil] at hhead
      exact Option.noConfusion hhead
    · exact foldl_addVariation_nodup _ _ (List.nodup_singleton _)
    · calc (List.foldl addVariation [address] (fallbackCandidates address)).length
          ≤ [address].length + (fallbackCandidates address).length :=
            foldl_addVariation_length _ _
        _ ≤ 1 + 3 := Nat.add_le_add_left (fallbackCandidates_length _) _
        _ = 4 := rfl

/-- Closed instances of `generateAddressFallbacks_wellformed`, with its
hypothesis discharged at the concrete inputs `""` and `"Kyiv"`. -/
theorem generateAddressFallbacks_wellformed_witness :
    generateAddressFallbacks "" = [""] ∧
    (generateAddressFallbacks "Kyiv").head? = some "Kyiv" :=
  ⟨(generateAddressFallbacks_wellformed "").2.2.2.2 rfl,
   (generateAddressFallbacks_wellformed "Kyiv").2.2.2.1⟩

/-- C3: on the input `"с. X, вул. Y, 3"` the fallback generator returns exactly
the ordered, de-duplicated sequence `["с. X, вул. Y, 3", "с. X, вул. Y",
"с. X"]`. -/
theorem generateAddressFallbacks_three_component_example :
    generateAddressFallbacks "с. X, вул. Y, 3" =
      ["с. X, вул. Y, 3", "с. X, вул. Y", "с. X"] := by decide

/-! ### No-comma inputs -/

theorem splitOnCommaAux_no_comma (l : List Char) (acc : List Char)
    (h : ∀ c ∈ l, c ≠ ',') : splitOnCommaAux l acc = [acc.reverse ++ l] := by
  induction l generalizing acc with
  | nil => simp [splitOnCommaAux]
  | cons c rest ih =>
      unfold splitOnCommaAux
      rw [if_neg (h c (List.mem_cons_self _ _)),
        ih _ (fun d hd => h d (List.mem_cons_of_mem _ hd))]
      simp

theorem splitOnComma_no_comma (s : String) (h : containsComma s = false) :
    splitOnComma s = [s] := by
  unfold splitOnComma
  rw [splitOnCommaAux_no_comma s.toList [] ?_]
  · rfl
  · intro c hc hc2
    subst hc2
    unfold containsComma at h
    simp at h
    exact h hc

theorem generateAddressFallbacks_no_comma (address : String)
    (h : containsComma address = false) :
    generateAddressFallbacks address = [address] := by
  by_cases he : address = ""
  · subst he; rfl
  · unfold generateAddressFallbacks
    rw [if_neg he, splitOnComma_no_comma address h]
    have h0 : addVariation [] address = [address] := by
      unfold addVariation; simp [he]
    simp [h0]

theorem tryVariations_singleton_calls {β : Type}
    (resolve : String → Except GeoError β) (v : String) :
    (tryVariations resolve [v]).1 = [v] := by
  unfold tryVariations
  cases hr : resolve v with
  | ok c => rfl
  | error e =>
      cases he : isEmptyResponse e <;> simp [tryVariations, he]

/-- C5: an input address with no comma separator yields exactly one variation,
the original string itself, and the progressive-fallback strategy issues
exactly one outbound resolution call for it. -/
theorem nominatimGeocode_no_comma_single_call {β : Type}
    (resolve : String → Except GeoError β) (address : String)
    (h : containsComma address = false) :
    generateAddressFallbacks address = [address] ∧
    (nominatimGeocode resolve address).1 = [address] := by
  have hg := generateAddressFallbacks_no_comma address h
  refine ⟨hg, ?_⟩
  unfold nominatimGeocode
  rw [hg]
  exact tryVariations_singleton_calls resolve address

/-- Closed instance of `nominatimGeocode_no_comma_single_call` at the
comma-free input `"Kyiv"` with an always-empty resolver. -/
theorem nominatimGeocode_no_comma_single_call_witness :
    generateAddressFallbacks "Kyiv" = ["Kyiv"] ∧
    (nominatimGeocode
      (fun _ => (Except.error GeoError.emptyResponse : Except GeoError (Coordinates Int)))
      "Kyiv").1 = ["Kyiv"] :=
  nominatimGeocode_no_comma_single_call _ "Kyiv" (by decide)

/-! ### Fallback resolution error policy -/

theorem tryVariations_all_empty {β : Type} (resolve : String → Except GeoError β)
    (vs : List String) (h : ∀ v ∈ vs, resolve v = .error .emptyResponse) :
    tryVariations resolve vs = (vs, .error .emptyResponse) := by
  induction vs with
  | nil => rfl
  | cons v rest ih =>
      have hv := h v (List.mem_cons_self _ _)
      simp [tryVariations, hv, isEmptyResponse,
        ih (fun u hu => h u (List.mem_cons_of_mem _ hu))]

theorem tryVariations_hard_error {β : Type} (resolve : String → Except GeoError β)
    (pre : List String) (v : String) (post : List String) (e : GeoError)
    (hpre : ∀ u ∈ pre, resolve u = .error .emptyResponse)
    (hv : resolve v = .error e) (he : isEmptyResponse e = false) :
    tryVariations resolve (pre ++ v :: post) = (pre ++ [v], .error e) := by
  induction pre with
  | nil => simp [tryVariations, hv, he]
  | cons u rest ih =>
      have hu := hpre u (List.mem_cons_self _ _)
      simp [tryVariations, hu, isEmptyResponse,
        ih (fun w hw => hpre w (List.mem_cons_of_mem _ hw))]

/-- C2: during a progressive-fallback resolution, an empty-response result for
a variation moves on to the next variation, so when every variation soft-misses
all variations are called and the whole operation fails with the same
empty-response error; any other (hard) error aborts immediately — the calls
stop at the failing variation, no later variation is attempted, and the error
is propagated unchanged. -/
theorem nominatimGeocode_error_policy {β : Type}
    (resolve : String → Except GeoError β) (address : String) :
    ((∀ v ∈ generateAddressFallbacks address, resolve v = .error .emptyResponse) →
      nominatimGeocode resolve address =
        (generateAddressFallbacks address, .error .emptyResponse)) ∧
    (∀ pre v post e, generateAddressFallbacks address = pre ++ v :: post →
      (∀ u ∈ pre, resolve u = .error .emptyResponse) →
      resolve v = .error e → isEmptyResponse e = false →
      nominatimGeocode resolve address = (pre ++ [v], .error e)) := by
  constructor
  · intro h
    exact tryVariations_all_empty resolve _ h
  · intro pre v post e hgen hpre hv he
    unfold nominatimGeocode
    rw [hgen]
    exact tryVariations_hard_error resolve pre v post e hpre hv he

/-- Closed instances of `nominatimGeocode_error_policy`: an always-empty
resolver exhausts both variations of `"Kyiv, Ukraine"` and fails with the
empty-response error, while a resolver failing hard (HTTP 500) on the first
variation of `"Lviv, Ukraine"` aborts after that single call with the error
unchanged. -/
theorem nominatimGeocode_error_policy_witness :
    nominatimGeocode
        (fun _ => (Except.error GeoError.emptyResponse : Except GeoError (Coordinates Int)))
        "Kyiv, Ukraine" =
      (["Kyiv, Ukraine", "Kyiv"], Except.error GeoError.emptyResponse) ∧
    nominatimGeocode
        (fun s => if s = "Lviv, Ukraine"
          then (Except.error (GeoError.apiError 500 "boom") : Except GeoError (Coordinates Int))
          else Except.error GeoError.emptyResponse)
        "Lviv, Ukraine" =
      (["Lviv, Ukraine"], Except.error (GeoError.apiError 500 "boom")) := by
  constructor
  · rw [(nominatimGeocode_error_policy
      (fun _ => (Except.error GeoError.emptyResponse : Except GeoError (Coordinates Int)))
      "Kyiv, Ukraine").1 (fun _ _ => rfl)]
    decide
  · exact (nominatimGeocode_error_policy _ "Lviv, Ukraine").2
      [] "Lviv, Ukraine" ["Lviv"] (GeoError.apiError 500 "boom")
      (by decide) (by simp) (by decide) (by decide)

/-- C4: when the generator yields three variations and the resolver returns an
empty result for the first two and a valid pair for the third, resolution
succeeds with that pair and exactly the three generated calls are made, in
order. -/
theorem nominatimGeocode_third_variation_success {β : Type}
    (resolve : String → Except GeoError β) (address v1 v2 v3 : String) (c : β)
    (hgen : generateAddressFallbacks address = [v1, v2, v3])
    (h1 : resolve v1 = .error .emptyResponse)
    (h2 : resolve v2 = .error .emptyResponse)
    (h3 : resolve v3 = .ok c) :
    nominatimGeocode resolve address = ([v1, v2, v3], .ok c) := by
  unfold nominatimGeocode
  rw [hgen]
  simp [tryVariations, h1, h2, h3, isEmptyResponse]

/-- Closed instance of `nominatimGeocode_third_variation_success`: the address
`"с. A, вул. B, 7"` generates three variations, the resolver soft-misses the
first two and resolves the settlement name alone. -/
theorem nominatimGeocode_third_variation_success_witness :
    nominatimGeocode
        (fun s => if s = "с. A"
          then (Except.ok (⟨49, 24⟩ : Coordinates Int))
          else Except.error GeoError.emptyResponse)
        "с. A, вул. B, 7" =
      (["с. A, вул. B, 7", "с. A, вул. B", "с. A"], Except.ok (⟨49, 24⟩ : Coordinates Int)) :=
  nominatimGeocode_third_variation_success _ _ "с. A, вул. B, 7" "с. A, вул. B" "с. A" _
    (by decide) (by decide) (by decide) (by decide)

/-! ### Direct-call strategy -/

/-- C6: the direct-call (Google) strategy maps a successful provider response
with an empty result list to the distinguished empty-response error, and a
non-empty result list to the coordinate pair of its first element. -/
theorem googleGeocode_result_mapping {α : Type}
    (client : String → Except String (List (GeocodingResult α))) (address : String) :
    (client address = .ok [] →
      googleGeocode client address = .error .emptyResponse) ∧
    (∀ r rest, client address = .ok (r :: rest) →
      googleGeocode client address = .ok { latitude := r.lat, longitude := r.lng }) := by
  constructor
  · intro h
    simp [googleGeocode, h]
  · intro r rest h
    simp [googleGeocode, h]

/-- Closed instances of `googleGeocode_result_mapping`: a client answering an
empty list yields the empty-response error; a client answering a one-element
list yields that element's pair. -/
theorem googleGeocode_result_mapping_witness :
    googleGeocode (fun _ => (Except.ok [] : Except String (List (GeocodingResult Int))))
      "Kyiv" = Except.error GoogleError.emptyResponse ∧
    googleGeocode (fun _ => (Except.ok [⟨50, 30⟩] : Except String (List (GeocodingResult Int))))
      "Kyiv" = Except.ok { latitude := 50, longitude := 30 } :=
  ⟨(googleGeocode_result_mapping (fun _ => Except.ok []) "Kyiv").1 rfl,
   (googleGeocode_result_mapping (fun _ => Except.ok [⟨50, 30⟩]) "Kyiv").2 ⟨50, 30⟩ [] rfl⟩

/-! ### Provider factory -/

/-- C7: factory construction fails (returning no provider) whenever a
credentialed variant (google or visicom) is configured with an empty
credential, and whenever the kind tag is unrecognized it fails with an error
message naming the offending tag. -/
theorem NewProvider_construction_failures (cfg : ProviderConfig) :
    (cfg.type = "google" → cfg.apiKey = "" →
      NewProvider cfg = (.error "API key is required for Google provider", [])) ∧
    (cfg.type = "visicom" → cfg.apiKey = "" →
      NewProvider cfg = (.error "API key is required for Visicom provider", [])) ∧
    (cfg.type ≠ "google" → cfg.type ≠ "nominatim" → cfg.type ≠ "visicom" →
      NewProvider cfg = (.error ("unsupported provider type: " ++ cfg.type), [])) := by
  refine ⟨?_, ?_, ?_⟩
  · intro ht hk
    simp [NewProvider, ht, hk]
  · intro ht hk
    simp [NewProvider, ht, hk]
  · intro h1 h2 h3
    simp [NewProvider, h1, h2, h3]

/-- Closed instances of `NewProvider_construction_failures`: google and
visicom with an empty key, and the unrecognized tag `"unsupported"`. -/
theorem NewProvider_construction_failures_witness :
    NewProvider { type := "google", apiKey := "", rateLimit := 10 } =
      (.error "API key is required for Google provider", []) ∧
    NewProvider { type := "visicom", apiKey := "", rateLimit := 10 } =
      (.error "API key is required for Visicom provider", []) ∧
    NewProvider { type := "unsupported", apiKey := "key", rateLimit := 10 } =
      (.error "unsupported provider type: unsupported", []) :=
  ⟨(NewProvider_construction_failures _).1 rfl rfl,
   (NewProvider_construction_failures _).2.1 rfl rfl,
   (NewProvider_construction_failures _).2.2 (by decide) (by decide) (by decide)⟩

/-- C8 counterexample: the Google variant is credentialed, yet with an omitted
(zero) rate budget the factory constructs it with no rate limit applied and
logs no warning — no default budget is supplied, contradicting the claim that
every credentialed variant is auto-defaulted with a warning. -/
theorem NewProvider_google_zero_rate_counterexample :
    NewProvider { type := "google", apiKey := "test-api-key", rateLimit := 0 } =
      (Except.ok (ProviderSpec.google "test-api-key" none), []) := by decide

/-- C8 (amended): only the Visicom variant auto-defaults an omitted rate
budget (to 5) with a logged warning; the Google variant with a zero rate
budget is constructed without any rate limit option and without a warning. -/
theorem NewProvider_zero_rate_default_visicom_only (key : String) (h : key ≠ "") :
    NewProvider { type := "visicom", apiKey := key, rateLimit := 0 } =
      (Except.ok (ProviderSpec.visicom key 5), [visicomRateWarning]) ∧
    NewProvider { type := "google", apiKey := key, rateLimit := 0 } =
      (Except.ok (ProviderSpec.google key none), []) := by
  constructor <;> simp [NewProvider, h]

/-- Closed instance of `NewProvider_zero_rate_default_visicom_only` at the
concrete key `"k"`. -/
theorem NewProvider_zero_rate_default_visicom_only_witness :
    NewProvider { type := "visicom", apiKey := "k", rateLimit := 0 } =
      (Except.ok (ProviderSpec.visicom "k" 5), [visicomRateWarning]) ∧
    NewProvider { type := "google", apiKey := "k", rateLimit := 0 } =
      (Except.ok (ProviderSpec.google "k" none), []) :=
  NewProvider_zero_rate_default_visicom_only "k" (by decide)

/-! ### Worker body -/

/-- C1: for every task a worker finishes processing, exactly one of the two
repository writes is issued: a successful provider resolution yields exactly
one coordinate-update call and zero failure-increment calls; a failed
resolution yields exactly one failure-increment call and zero
coordinate-update calls. -/
theorem workerProcessTask_write_dichotomy {α ε : Type}
    (providerName addressPfx : String)
    (geocode : String → Except ε (Coordinates α)) (errString : ε → String)
    (t : Task) :
    ((∃ c, geocode (addressPfx ++ t.address) = .ok c) →
      (workerProcessTask providerName addressPfx geocode errString t).countP
          WorkerEvent.isCoordUpdate = 1 ∧
      (workerProcessTask providerName addressPfx geocode errString t).countP
          WorkerEvent.isFailureIncr = 0) ∧
    (∀ e, geocode (addressPfx ++ t.address) = .error e →
      (workerProcessTask providerName addressPfx geocode errString t).countP
          WorkerEvent.isCoordUpdate = 0 ∧
      (workerProcessTask providerName addressPfx geocode errString t).countP
          WorkerEvent.isFailureIncr = 1) := by
  constructor
  · rintro ⟨c, hc⟩
    simp [workerProcessTask, hc, List.countP_cons, WorkerEvent.isCoordUpdate,
      WorkerEvent.isFailureIncr]
  · intro e he
    simp [workerProcessTask, he, List.countP_cons, WorkerEvent.isCoordUpdate,
      WorkerEvent.isFailureIncr]

/-- Closed instances of `workerProcessTask_write_dichotomy`: a provider that
succeeds on the prefixed address, and one that fails on it. -/
theorem workerProcessTask_write_dichotomy_witness :
    ((workerProcessTask "google" "Ukraine, "
        (fun _ => (Except.ok ⟨50, 30⟩ : Except String (Coordinates Int)))
        (fun s => s) ⟨1, "Kyiv"⟩).countP WorkerEvent.isCoordUpdate = 1 ∧
      (workerProcessTask "google" "Ukraine, "
        (fun _ => (Except.ok ⟨50, 30⟩ : Except String (Coordinates Int)))
        (fun s => s) ⟨1, "Kyiv"⟩).countP WorkerEvent.isFailureIncr = 0) ∧
    ((workerProcessTask "google" "Ukraine, "
        (fun _ => (Except.error "boom" : Except String (Coordinates Int)))
        (fun s => s) ⟨2, "Nowhere"⟩).countP WorkerEvent.isCoordUpdate = 0 ∧
      (workerProcessTask "google" "Ukraine, "
        (fun _ => (Except.error "boom" : Except String (Coordinates Int)))
        (fun s => s) ⟨2, "Nowhere"⟩).countP WorkerEvent.isFailureIncr = 1) :=
  ⟨(workerProcessTask_write_dichotomy "google" "Ukraine, " _ _ _).1 ⟨⟨50, 30⟩, rfl⟩,
   (workerProcessTask_write_dichotomy "google" "Ukraine, " _ _ _).2 "boom" rfl⟩

/-- C9: every worker iteration records exactly one duration observation into
the request-duration histogram, labelled with the service's provider name, and
the observation sits in the trace before the success/failure branch (right
after the active-workers gauge increment), regardless of the outcome. -/
theorem workerProcessTask_duration_observed_once {α ε : Type}
    (providerName addressPfx : String)
    (geocode : String → Except ε (Coordinates α)) (errString : ε → String)
    (t : Task) :
    (workerProcessTask providerName addressPfx geocode errString t).countP
        WorkerEvent.isObserve = 1 ∧
    ∃ rest, workerProcessTask providerName addressPfx geocode errString t =
        WorkerEvent.activeWorkersInc :: WorkerEvent.observeDuration providerName :: rest ∧
      rest.countP WorkerEvent.isObserve = 0 := by
  cases hg : geocode (addressPfx ++ t.address) with
  | ok c =>
      refine ⟨?_, [WorkerEvent.taskProcessedInc "success",
        WorkerEvent.repoUpdateCoordinates t.id c, WorkerEvent.activeWorkersDec], ?_, ?_⟩ <;>
        simp [workerProcessTask, hg, List.countP_cons, WorkerEvent.isObserve]
  | error e =>
      refine ⟨?_, [WorkerEvent.taskProcessedInc "failure", WorkerEvent.apiErrorsInc,
        WorkerEvent.repoIncrementFailure t.id (errString e), WorkerEvent.activeWorkersDec],
        ?_, ?_⟩ <;>
        simp [workerProcessTask, hg, List.countP_cons, WorkerEvent.isObserve]

end Atlas
